import Mathlib

/-!
Shallow embedding of the pricing / statistics module
`frontend/src/utils/calculations.ts` of the `dpe` repository.

The algebraic helpers (margins, elasticity, percentage change, optimal
price, linear trend) use only field arithmetic and are embedded over `ℚ`
(exact idealisation of JS numbers; division by zero yields the junk value
`0`, mirrored by Lean's convention).  The statistical part
(`normalCDF`, `calculateStatisticalSignificance`) uses `Math.sqrt` and
`Math.exp`, so it is embedded over `ℝ` with `Real.sqrt` / `Real.exp`.
-/

namespace Calculations

/-- `calculateMargin(price, cost)`: returns 0 when `price === 0`,
otherwise `((price - cost) / price) * 100`. -/
def calculateMargin (price cost : ℚ) : ℚ :=
  if price = 0 then 0 else (price - cost) / price * 100

/-- `calculatePriceFromMargin(cost, marginPercent) = cost / (1 - marginPercent / 100)`.
The source has NO guard for `marginPercent >= 100`. -/
def calculatePriceFromMargin (cost marginPercent : ℚ) : ℚ :=
  cost / (1 - marginPercent / 100)

/-- `calculatePriceElasticity(oldPrice, newPrice, oldQuantity, newQuantity)`:
returns 0 when `oldPrice === 0 || oldQuantity === 0`; computes the two
percentage changes; returns 0 when the price percentage change is 0;
otherwise returns their quotient. -/
def calculatePriceElasticity (oldPrice newPrice oldQuantity newQuantity : ℚ) : ℚ :=
  if oldPrice = 0 ∨ oldQuantity = 0 then 0
  else
    let percentChangeQuantity := (newQuantity - oldQuantity) / oldQuantity * 100
    let percentChangePrice := (newPrice - oldPrice) / oldPrice * 100
    if percentChangePrice = 0 then 0
    else percentChangeQuantity / percentChangePrice

/-- `calculatePercentageChange(oldValue, newValue)`: when `oldValue === 0`
returns `newValue === 0 ? 0 : 100`, otherwise `((newValue - oldValue) / oldValue) * 100`. -/
def calculatePercentageChange (oldValue newValue : ℚ) : ℚ :=
  if oldValue = 0 then (if newValue = 0 then 0 else 100)
  else (newValue - oldValue) / oldValue * 100

/-- `calculateOptimalPrice(baseCost, targetMargin, competitorPrice,
competitorWeight, minPrice, maxPrice)`: margin-based price, competitor
weighted blend, then `Math.max(minPrice, Math.min(maxPrice, weightedPrice))`. -/
def calculateOptimalPrice (baseCost targetMargin competitorPrice competitorWeight
    minPrice maxPrice : ℚ) : ℚ :=
  let marginBasedPrice := calculatePriceFromMargin baseCost targetMargin
  let weightedPrice := marginBasedPrice * (1 - competitorWeight) + competitorPrice * competitorWeight
  max minPrice (min maxPrice weightedPrice)

/-- One `{x, y}` data point fed to `calculateLinearTrend`. -/
structure TrendPoint where
  x : ℚ
  y : ℚ
deriving DecidableEq

/-- The `{slope, intercept}` record returned by `calculateLinearTrend`. -/
structure TrendResult where
  slope : ℚ
  intercept : ℚ
deriving DecidableEq

/-- `calculateLinearTrend(data)`: `{slope: 0, intercept: 0}` when
`data.length < 2`; otherwise the closed-form least-squares sums
(`reduce` is embedded as `List.foldl`).  The source has NO check on the
denominator `n*sumX2 - sumX*sumX`. -/
def calculateLinearTrend (data : List TrendPoint) : TrendResult :=
  if data.length < 2 then ⟨0, 0⟩
  else
    let n : ℚ := data.length
    let sumX := data.foldl (fun s pt => s + pt.x) 0
    let sumY := data.foldl (fun s pt => s + pt.y) 0
    let sumXY := data.foldl (fun s pt => s + pt.x * pt.y) 0
    let sumX2 := data.foldl (fun s pt => s + pt.x * pt.x) 0
    let slope := (n * sumXY - sumX * sumY) / (n * sumX2 - sumX * sumX)
    let intercept := (sumY - slope * sumX) / n
    ⟨slope, intercept⟩

/-- `normalCDF(z)`: the Abramowitz–Stegun five-term rational approximation
exactly as coded (`Math.abs`, `Math.sqrt`, `Math.exp` become `|·|`,
`Real.sqrt`, `Real.exp`; the JS reassignment `z = Math.abs(z)/Math.sqrt(2)`
becomes the binding `x`). -/
noncomputable def normalCDF (z : ℝ) : ℝ :=
  let a1 : ℝ := 0.254829592
  let a2 : ℝ := -0.284496736
  let a3 : ℝ := 1.421413741
  let a4 : ℝ := -1.453152027
  let a5 : ℝ := 1.061405429
  let p : ℝ := 0.3275911
  let sgn : ℝ := if z < 0 then -1 else 1
  let x := |z| / Real.sqrt 2
  let t := 1 / (1 + p * x)
  let y := 1 - ((((a5 * t + a4) * t + a3) * t + a2) * t + a1) * t * Real.exp (-(x * x))
  0.5 * (1 + sgn * y)

/-- The `{isSignificant, pValue}` record returned by
`calculateStatisticalSignificance`. -/
structure SignificanceResult where
  isSignificant : Bool
  pValue : ℝ

/-- `calculateStatisticalSignificance(controlConversions, controlVisitors,
variantConversions, variantVisitors, confidenceLevel)`: simplified
two-proportion z-test.  The source has NO guard for zero `visitors`: it
divides unconditionally and always returns a record. -/
noncomputable def calculateStatisticalSignificance
    (controlConversions controlVisitors variantConversions variantVisitors
     confidenceLevel : ℝ) : SignificanceResult :=
  let p1 := controlConversions / controlVisitors
  let p2 := variantConversions / variantVisitors
  let p := (controlConversions + variantConversions) / (controlVisitors + variantVisitors)
  let se := Real.sqrt (p * (1 - p) * (1 / controlVisitors + 1 / variantVisitors))
  let z := |p1 - p2| / se
  let pValue := 2 * (1 - normalCDF z)
  ⟨decide (pValue < 1 - confidenceLevel), pValue⟩

/-- The normal-CDF formula exactly as the SPEC's words state it (claim C9):
`0.5*(1 + sign(z)*(1 − ((((a5*t + a4)*t + a3)*t + a2)*t + a1)*t*exp(−(|z|/sqrt 2)^2)))`
with `t = 1/(1 + p*|z|/sqrt 2)` and the listed coefficients; `sign(z)` is
`-1` for negative `z` and `1` otherwise. -/
noncomputable def normalCDF_specFormula (z : ℝ) : ℝ :=
  let t := 1 / (1 + 0.3275911 * |z| / Real.sqrt 2)
  0.5 * (1 + (if z < 0 then (-1 : ℝ) else 1) *
    (1 - ((((1.061405429 * t + -1.453152027) * t + 1.421413741) * t + -0.284496736) * t
      + 0.254829592) * t * Real.exp (-(|z| / Real.sqrt 2) ^ 2)))

end Calculations

namespace Calculations

/-- C2 (code evaluated at the failing input): `calculatePriceFromMargin` has no
guard for `targetMarginPct >= 100`; at `cost = 80`, `margin = 150` it returns
the numeric price `-160` (same value in JS), and `calculateOptimalPrice`
silently clamps it into `[10, 100]`, returning the valid-looking price `10` —
no error is ever produced. -/
theorem priceFromMargin_no_highMargin_guard :
    calculatePriceFromMargin 80 150 = -160 ∧
    calculateOptimalPrice 80 150 0 0 10 100 = 10 := by
  constructor <;> norm_num [calculateOptimalPrice, calculatePriceFromMargin]

/-- C3 (counterexample): on `[(1,1),(1,3)]` the least-squares denominator
`n*Σx² − (Σx)²` is 0, yet `calculateLinearTrend` does NOT return
`{slope: 0, intercept: 0}` as the claim states: it divides anyway and the
intercept comes out as the mean of the y values (2), not 0. -/
theorem linearTrend_zeroDenom_counterexample :
    ((([⟨1, 1⟩, ⟨1, 3⟩] : List TrendPoint).length : ℚ) *
        ([⟨1, 1⟩, ⟨1, 3⟩] : List TrendPoint).foldl (fun s pt => s + pt.x * pt.x) 0 -
      (([⟨1, 1⟩, ⟨1, 3⟩] : List TrendPoint).foldl (fun s pt => s + pt.x) 0) *
        (([⟨1, 1⟩, ⟨1, 3⟩] : List TrendPoint).foldl (fun s pt => s + pt.x) 0) = 0) ∧
    calculateLinearTrend [⟨1, 1⟩, ⟨1, 3⟩] ≠ ⟨0, 0⟩ := by
  constructor
  · norm_num [List.foldl]
  · intro h
    rw [show calculateLinearTrend [⟨1, 1⟩, ⟨1, 3⟩] = ⟨0, 2⟩ by
      norm_num [calculateLinearTrend, List.foldl]] at h
    exact absurd (congrArg TrendResult.intercept h) (by norm_num)

/-- C3 (amended): `calculateLinearTrend` returns `{0, 0}` when fewer than 2
points are given, and on `(0,0),(1,2)` returns slope 2, intercept 0; but on a
degenerate input with all x identical (denominator 0) it does not return
`{0, 0}` — the zero-division slope is combined with the unguarded intercept
formula, yielding `{0, mean y}` under exact-field semantics. -/
theorem linearTrend_amended :
    (∀ data : List TrendPoint, data.length < 2 → calculateLinearTrend data = ⟨0, 0⟩) ∧
    calculateLinearTrend [⟨0, 0⟩, ⟨1, 2⟩] = ⟨2, 0⟩ ∧
    calculateLinearTrend [⟨1, 1⟩, ⟨1, 3⟩] = ⟨0, 2⟩ := by
  refine ⟨fun data h => ?_, ?_, ?_⟩
  · unfold calculateLinearTrend
    rw [if_pos h]
  · norm_num [calculateLinearTrend, List.foldl]
  · norm_num [calculateLinearTrend, List.foldl]

/-- C3 (witness): the amended theorem applied at the empty list and at the
two-point example. -/
theorem linearTrend_amended_witness :
    ([] : List TrendPoint).length < 2 ∧ calculateLinearTrend [] = ⟨0, 0⟩ ∧
    calculateLinearTrend [⟨0, 0⟩, ⟨1, 2⟩] = ⟨2, 0⟩ :=
  ⟨by decide, linearTrend_amended.1 [] (by decide), linearTrend_amended.2.1⟩

/-- C4: `calculatePriceElasticity` returns `%ΔQuantity / %ΔPrice` with the old
values as base, and returns 0 whenever `oldPrice = 0`, `oldQuantity = 0`, or
the percentage price change is 0 (equivalently `newPrice = oldPrice`); in
particular `(100, 100, 10, 10) ↦ 0` and `(100, 90, 100, 120) ↦ -2`. -/
theorem priceElasticity_formula (op np oq nq : ℚ) :
    (op = 0 ∨ oq = 0 ∨ np = op → calculatePriceElasticity op np oq nq = 0) ∧
    (op ≠ 0 → oq ≠ 0 → np ≠ op →
      calculatePriceElasticity op np oq nq = ((nq - oq) / oq) / ((np - op) / op)) ∧
    calculatePriceElasticity 100 100 10 10 = 0 ∧
    calculatePriceElasticity 100 90 100 120 = -2 := by
  refine ⟨?_, ?_, by norm_num [calculatePriceElasticity], by norm_num [calculatePriceElasticity]⟩
  · rintro (h | h | h)
    · simp [calculatePriceElasticity, h]
    · simp [calculatePriceElasticity, h]
    · subst h
      simp [calculatePriceElasticity]
  · intro h1 h2 h3
    have hpcp : (np - op) / op * 100 ≠ 0 :=
      mul_ne_zero (div_ne_zero (sub_ne_zero.mpr h3) h1) (by norm_num)
    simp only [calculatePriceElasticity]
    rw [if_neg (by push_neg; exact ⟨h1, h2⟩)]
    rw [if_neg hpcp]
    rw [mul_div_mul_right _ _ (by norm_num : (100 : ℚ) ≠ 0)]

/-- C4 (witness): the elasticity formula evaluated at the worked example and a
no-price-change input. -/
theorem priceElasticity_formula_witness :
    calculatePriceElasticity 100 90 100 120 = ((120 - 100) / 100) / ((90 - 100) / 100) ∧
    calculatePriceElasticity 7 7 3 5 = 0 :=
  ⟨(priceElasticity_formula 100 90 100 120).2.1 (by norm_num) (by norm_num) (by norm_num),
   (priceElasticity_formula 7 7 3 5).1 (Or.inr (Or.inr rfl))⟩

/-- C6: round-trip — for `cost > 0` and `margin < 100`,
`calculateMargin (calculatePriceFromMargin cost margin) cost = margin`
exactly, in field arithmetic. -/
theorem margin_priceFromMargin_roundTrip (cost m : ℚ) (hc : 0 < cost) (hm : m < 100) :
    calculateMargin (calculatePriceFromMargin cost m) cost = m := by
  have hden : 0 < 1 - m / 100 := by linarith
  have hprice : 0 < calculatePriceFromMargin cost m := div_pos hc hden
  have h100 : (0 : ℚ) < 100 - m := by linarith
  unfold calculateMargin
  rw [if_neg (ne_of_gt hprice)]
  unfold calculatePriceFromMargin
  have hc' : cost ≠ 0 := ne_of_gt hc
  have hden' : (1 : ℚ) - m / 100 ≠ 0 := ne_of_gt hden
  have h100' : (100 : ℚ) - m ≠ 0 := ne_of_gt h100
  field_simp
  ring

/-- C6 (witness): the round-trip at `cost = 80`, `margin = 20`. -/
theorem margin_priceFromMargin_roundTrip_witness :
    (0 : ℚ) < 80 ∧ (20 : ℚ) < 100 ∧
    calculateMargin (calculatePriceFromMargin 80 20) 80 = 20 :=
  ⟨by norm_num, by norm_num, margin_priceFromMargin_roundTrip 80 20 (by norm_num) (by norm_num)⟩

/-- C7: whenever `minPrice ≤ maxPrice` (and `targetMargin < 100`), the price
returned by `calculateOptimalPrice` lies in `[minPrice, maxPrice]` — the
bounds policy is clamping, never rejection. -/
theorem optimalPrice_within_bounds (baseCost targetMargin competitorPrice competitorWeight
    minPrice maxPrice : ℚ) (hb : minPrice ≤ maxPrice) (hm : targetMargin < 100) :
    minPrice ≤ calculateOptimalPrice baseCost targetMargin competitorPrice competitorWeight
        minPrice maxPrice ∧
    calculateOptimalPrice baseCost targetMargin competitorPrice competitorWeight
        minPrice maxPrice ≤ maxPrice := by
  unfold calculateOptimalPrice
  exact ⟨le_max_left _ _, max_le hb (min_le_left _ _)⟩

/-- C7 (witness): the bounds at a concrete optimization request. -/
theorem optimalPrice_within_bounds_witness :
    10 ≤ calculateOptimalPrice 80 20 90 (1 / 2) 10 100 ∧
    calculateOptimalPrice 80 20 90 (1 / 2) 10 100 ≤ 100 :=
  optimalPrice_within_bounds 80 20 90 (1 / 2) 10 100 (by norm_num) (by norm_num)

/-- C8: noninterference — with `competitorWeight = 0`, `calculateOptimalPrice`
returns the same price for any two competitor prices: the output depends only
on the margin-based price, clamped. -/
theorem optimalPrice_zeroWeight_ignores_competitor (baseCost targetMargin cp1 cp2
    minPrice maxPrice : ℚ) :
    calculateOptimalPrice baseCost targetMargin cp1 0 minPrice maxPrice =
    calculateOptimalPrice baseCost targetMargin cp2 0 minPrice maxPrice := by
  unfold calculateOptimalPrice
  norm_num

/-- C10: `calculatePercentageChange(0, newValue)` returns 0 when
`newValue = 0` and 100 for every `newValue ≠ 0`, regardless of magnitude or
sign. -/
theorem percentageChange_zeroOldValue (newValue : ℚ) :
    (newValue = 0 → calculatePercentageChange 0 newValue = 0) ∧
    (newValue ≠ 0 → calculatePercentageChange 0 newValue = 100) := by
  constructor <;> intro h <;> simp [calculatePercentageChange, h]

/-- C10 (witness): a negative, a large positive, and the zero new value. -/
theorem percentageChange_zeroOldValue_witness :
    calculatePercentageChange 0 (-5) = 100 ∧
    calculatePercentageChange 0 1000000 = 100 ∧
    calculatePercentageChange 0 0 = 0 :=
  ⟨(percentageChange_zeroOldValue (-5)).2 (by norm_num),
   (percentageChange_zeroOldValue 1000000).2 (by norm_num),
   (percentageChange_zeroOldValue 0).1 rfl⟩

/-- For `z ≥ 0`, the two-tailed tail mass `2*(1 − normalCDF z)` is the
Abramowitz–Stegun polynomial (in Horner form) times `t` times
`exp(−x²)`, where `x = z/√2` and `t = 1/(1 + p·x)`. -/
lemma two_mul_one_sub_normalCDF (z x t : ℝ) (hz : 0 ≤ z)
    (hx : x = z / Real.sqrt 2) (ht : t = 1 / (1 + 0.3275911 * x)) :
    2 * (1 - normalCDF z) =
      ((((1.061405429 * t + -1.453152027) * t + 1.421413741) * t + -0.284496736) * t
        + 0.254829592) * t * Real.exp (-(x * x)) := by
  subst hx ht
  simp only [normalCDF]
  rw [if_neg (not_lt.mpr hz), abs_of_nonneg hz]
  ring

/-- Loose bound on the Horner polynomial times `t` over `[0, 1]`:
positive terms bounded by their coefficients, negative terms dropped. -/
lemma hornerPoly_mul_le_of_unit (t : ℝ) (h0 : 0 ≤ t) (h1 : t ≤ 1) :
    ((((1.061405429 * t + -1.453152027) * t + 1.421413741) * t + -0.284496736) * t
      + 0.254829592) * t ≤ 2.74 := by
  nlinarith [(pow_le_one₀ h0 h1 : t ^ 5 ≤ 1), (pow_le_one₀ h0 h1 : t ^ 3 ≤ 1),
    pow_nonneg h0 4, pow_nonneg h0 2, h1]

/-- Tight bound on the Horner polynomial times `t` over `[0.672, 0.6725]`
(the interval reached by the z-test example), by monomial interval bounds. -/
lemma hornerPoly_mul_le_of_interval (t : ℝ) (h0 : 0.672 ≤ t) (h1 : t ≤ 0.6725) :
    ((((1.061405429 * t + -1.453152027) * t + 1.421413741) * t + -0.284496736) * t
      + 0.254829592) * t ≤ 0.33 := by
  have ht0 : (0 : ℝ) ≤ t := le_trans (by norm_num) h0
  nlinarith [pow_le_pow_left₀ ht0 h1 5, pow_le_pow_left₀ (by norm_num : (0:ℝ) ≤ 0.672) h0 4,
    pow_le_pow_left₀ ht0 h1 3, pow_le_pow_left₀ (by norm_num : (0:ℝ) ≤ 0.672) h0 2, h1]

/-- `exp c` dominates `(1 + c/8)^8` for nonnegative `c`. -/
lemma exp_ge_one_add_div_eight_pow (c : ℝ) (hc : 0 ≤ c) :
    (1 + c / 8) ^ 8 ≤ Real.exp c := by
  have h := Real.add_one_le_exp (c / 8)
  have h0 : (0 : ℝ) ≤ 1 + c / 8 := by linarith
  have h2 : Real.exp (c / 8) ^ 8 = Real.exp c := by
    rw [← Real.exp_nat_mul]
    congr 1
    push_cast
    ring
  calc (1 + c / 8) ^ 8 ≤ Real.exp (c / 8) ^ 8 := pow_le_pow_left₀ h0 (by linarith) 8
    _ = Real.exp c := h2

/-- `isSignificant` is exactly the comparison `pValue < 1 - confidenceLevel`. -/
lemma isSignificant_iff (cc cv vc vv conf : ℝ) :
    (calculateStatisticalSignificance cc cv vc vv conf).isSignificant = true ↔
      (calculateStatisticalSignificance cc cv vc vv conf).pValue < 1 - conf :=
  decide_eq_true_iff

/-- The z-test example (control 100/1000, variant 130/1000): the two-tailed
p-value is below 0.05. -/
lemma statSig_example_pValue_lt :
    (calculateStatisticalSignificance 100 1000 130 1000 0.95).pValue < 0.05 := by
  have hpv : (calculateStatisticalSignificance 100 1000 130 1000 0.95).pValue =
      2 * (1 - normalCDF ((3 / 100) / Real.sqrt (4071 / 20000000))) := by
    show 2 * (1 - normalCDF (|(100 : ℝ) / 1000 - 130 / 1000| /
        Real.sqrt (((100 : ℝ) + 130) / (1000 + 1000) * (1 - (100 + 130) / (1000 + 1000)) *
          (1 / 1000 + 1 / 1000)))) = _
    rw [show |(100 : ℝ) / 1000 - 130 / 1000| = 3 / 100 by
        rw [show (100 : ℝ) / 1000 - 130 / 1000 = -(3 / 100) by norm_num, abs_neg,
          abs_of_nonneg (by norm_num)],
      show ((100 : ℝ) + 130) / (1000 + 1000) * (1 - (100 + 130) / (1000 + 1000)) *
          (1 / 1000 + 1 / 1000) = 4071 / 20000000 by norm_num]
  rw [hpv]
  have hq0 : (0 : ℝ) < 4071 / 20000000 := by norm_num
  have hsq : 0 < Real.sqrt (4071 / 20000000) := Real.sqrt_pos.mpr hq0
  set z : ℝ := (3 / 100) / Real.sqrt (4071 / 20000000) with hzdef
  have hz0 : 0 ≤ z := by positivity
  set x : ℝ := z / Real.sqrt 2 with hxdef
  have hx0 : 0 ≤ x := by positivity
  set t : ℝ := 1 / (1 + 0.3275911 * x) with htdef
  have hx2 : x * x = 3000 / 1357 := by
    have h2q : Real.sqrt (4071 / 20000000) * Real.sqrt 2 = Real.sqrt (4071 / 10000000) := by
      rw [← Real.sqrt_mul (by norm_num : (0 : ℝ) ≤ 4071 / 20000000) 2]
      norm_num
    have hxe : x = (3 / 100) / Real.sqrt (4071 / 10000000) := by
      rw [hxdef, hzdef, div_div, h2q]
    rw [hxe, div_mul_div_comm, Real.mul_self_sqrt (by norm_num : (0 : ℝ) ≤ 4071 / 10000000)]
    norm_num
  have hxl : 14868 / 10000 < x := by
    by_contra h
    push_neg at h
    have hle : x * x ≤ (14868 / 10000 : ℝ) * (14868 / 10000) :=
      mul_le_mul h h hx0 (by norm_num)
    rw [hx2] at hle
    norm_num at hle
  have hxu : x < 14869 / 10000 := by
    by_contra h
    push_neg at h
    have hle : (14869 / 10000 : ℝ) * (14869 / 10000) ≤ x * x :=
      mul_le_mul h h (by norm_num) hx0
    rw [hx2] at hle
    norm_num at hle
  have hden : (0 : ℝ) < 1 + 0.3275911 * x := by nlinarith
  have htl : (0.672 : ℝ) ≤ t := by
    rw [htdef, le_div_iff₀ hden]
    nlinarith
  have htu : t ≤ 0.6725 := by
    rw [htdef, div_le_iff₀ hden]
    nlinarith
  have hexp : Real.exp (-(x * x)) < 5 / 33 := by
    rw [hx2, Real.exp_neg]
    have h8 : ((1732 / 1357 : ℝ)) ^ 8 ≤ Real.exp (3000 / 1357) := by
      have h := exp_ge_one_add_div_eight_pow (3000 / 1357) (by norm_num)
      rw [show (1 : ℝ) + (3000 / 1357) / 8 = 1732 / 1357 by norm_num] at h
      exact h
    have h66 : (33 / 5 : ℝ) < (1732 / 1357) ^ 8 := by norm_num
    have hgt : (33 / 5 : ℝ) < Real.exp (3000 / 1357) := lt_of_lt_of_le h66 h8
    have hinv : (Real.exp (3000 / 1357))⁻¹ < ((33 : ℝ) / 5)⁻¹ :=
      inv_strictAnti₀ (by norm_num) hgt
    rw [show ((33 : ℝ) / 5)⁻¹ = 5 / 33 by norm_num] at hinv
    exact hinv
  rw [two_mul_one_sub_normalCDF z x t hz0 hxdef htdef]
  calc ((((1.061405429 * t + -1.453152027) * t + 1.421413741) * t + -0.284496736) * t
        + 0.254829592) * t * Real.exp (-(x * x))
      ≤ 0.33 * Real.exp (-(x * x)) :=
        mul_le_mul_of_nonneg_right (hornerPoly_mul_le_of_interval t htl htu)
          (le_of_lt (Real.exp_pos _))
    _ < 0.33 * (5 / 33) := mul_lt_mul_of_pos_left hexp (by norm_num)
    _ = 0.05 := by norm_num

/-- At zero control visitors the source still divides and returns a verdict;
in exact-field semantics the p-value it reports is below 0.05. -/
lemma statSig_zeroVisitors_pValue_lt :
    (calculateStatisticalSignificance 0 0 130 1000 0.95).pValue < 0.05 := by
  have hpv : (calculateStatisticalSignificance 0 0 130 1000 0.95).pValue =
      2 * (1 - normalCDF ((13 / 100) / Real.sqrt (1131 / 10000000))) := by
    show 2 * (1 - normalCDF (|(0 : ℝ) / 0 - 130 / 1000| /
        Real.sqrt (((0 : ℝ) + 130) / (0 + 1000) * (1 - (0 + 130) / (0 + 1000)) *
          (1 / 0 + 1 / 1000)))) = _
    rw [show |(0 : ℝ) / 0 - 130 / 1000| = 13 / 100 by
        rw [show (0 : ℝ) / 0 - 130 / 1000 = -(13 / 100) by norm_num, abs_neg,
          abs_of_nonneg (by norm_num)],
      show ((0 : ℝ) + 130) / (0 + 1000) * (1 - (0 + 130) / (0 + 1000)) *
          (1 / 0 + 1 / 1000) = 1131 / 10000000 by norm_num]
  rw [hpv]
  have hq0 : (0 : ℝ) < 1131 / 10000000 := by norm_num
  have hsq : 0 < Real.sqrt (1131 / 10000000) := Real.sqrt_pos.mpr hq0
  set z : ℝ := (13 / 100) / Real.sqrt (1131 / 10000000) with hzdef
  have hz0 : 0 ≤ z := by positivity
  set x : ℝ := z / Real.sqrt 2 with hxdef
  have hx0 : 0 ≤ x := by positivity
  set t : ℝ := 1 / (1 + 0.3275911 * x) with htdef
  have hx2 : x * x = 84500 / 1131 := by
    have h2q : Real.sqrt (1131 / 10000000) * Real.sqrt 2 = Real.sqrt (1131 / 5000000) := by
      rw [← Real.sqrt_mul (by norm_num : (0 : ℝ) ≤ 1131 / 10000000) 2]
      norm_num
    have hxe : x = (13 / 100) / Real.sqrt (1131 / 5000000) := by
      rw [hxdef, hzdef, div_div, h2q]
    rw [hxe, div_mul_div_comm, Real.mul_self_sqrt (by norm_num : (0 : ℝ) ≤ 1131 / 5000000)]
    norm_num
  have hden : (0 : ℝ) < 1 + 0.3275911 * x := by nlinarith
  have htl : (0 : ℝ) ≤ t := by positivity
  have htu : t ≤ 1 := by
    rw [htdef, div_le_iff₀ hden]
    nlinarith
  have hexp : Real.exp (-(x * x)) < 5 / 274 := by
    rw [hx2, Real.exp_neg]
    have h1 : (84500 / 1131 : ℝ) + 1 ≤ Real.exp (84500 / 1131) :=
      Real.add_one_le_exp _
    have hgt : (274 / 5 : ℝ) < Real.exp (84500 / 1131) := by
      have : (274 / 5 : ℝ) < 84500 / 1131 + 1 := by norm_num
      linarith
    have hinv : (Real.exp (84500 / 1131))⁻¹ < ((274 : ℝ) / 5)⁻¹ :=
      inv_strictAnti₀ (by norm_num) hgt
    rw [show ((274 : ℝ) / 5)⁻¹ = 5 / 274 by norm_num] at hinv
    exact hinv
  rw [two_mul_one_sub_normalCDF z x t hz0 hxdef htdef]
  calc ((((1.061405429 * t + -1.453152027) * t + 1.421413741) * t + -0.284496736) * t
        + 0.254829592) * t * Real.exp (-(x * x))
      ≤ 2.74 * Real.exp (-(x * x)) :=
        mul_le_mul_of_nonneg_right (hornerPoly_mul_le_of_unit t htl htu)
          (le_of_lt (Real.exp_pos _))
    _ < 2.74 * (5 / 274) := mul_lt_mul_of_pos_left hexp (by norm_num)
    _ = 0.05 := by norm_num

/-- C1 (code evaluated at the failing input): with `control.visitors = 0` the
source performs the divisions anyway and returns a numeric verdict — no
`InvalidConfiguration` error path exists.  Under the exact-field semantics of
the embedding the verdict even comes out `isSignificant = true`. -/
theorem statSig_zeroVisitors_returns_verdict :
    (calculateStatisticalSignificance 0 0 130 1000 0.95).isSignificant = true ∧
    (calculateStatisticalSignificance 0 0 130 1000 0.95).pValue < 0.05 := by
  have h := statSig_zeroVisitors_pValue_lt
  refine ⟨(isSignificant_iff _ _ _ _ _).mpr ?_, h⟩
  calc (calculateStatisticalSignificance 0 0 130 1000 0.95).pValue < 0.05 := h
    _ ≤ 1 - 0.95 := by norm_num

/-- C5: `calculateStatisticalSignificance` implements the two-tailed
two-proportion z-test — for arms with positive visitors the p-value is
`2*(1 − normalCDF(|p1 − p2| / se))` with the pooled standard error, and
`isSignificant` holds exactly when `pValue < 1 − confidenceLevel`; the example
control 100/1000 vs variant 130/1000 at confidence 0.95 is significant with
p-value below 0.05. -/
theorem statSig_zTest (cc cv vc vv conf : ℝ) (hcv : 0 < cv) (hvv : 0 < vv) :
    ((calculateStatisticalSignificance cc cv vc vv conf).pValue =
        2 * (1 - normalCDF (|cc / cv - vc / vv| /
          Real.sqrt ((cc + vc) / (cv + vv) * (1 - (cc + vc) / (cv + vv)) *
            (1 / cv + 1 / vv)))) ∧
      ((calculateStatisticalSignificance cc cv vc vv conf).isSignificant = true ↔
        (calculateStatisticalSignificance cc cv vc vv conf).pValue < 1 - conf)) ∧
    (calculateStatisticalSignificance 100 1000 130 1000 0.95).isSignificant = true ∧
    (calculateStatisticalSignificance 100 1000 130 1000 0.95).pValue < 0.05 := by
  refine ⟨⟨rfl, isSignificant_iff _ _ _ _ _⟩, ?_, statSig_example_pValue_lt⟩
  refine (isSignificant_iff _ _ _ _ _).mpr ?_
  calc (calculateStatisticalSignificance 100 1000 130 1000 0.95).pValue
      < 0.05 := statSig_example_pValue_lt
    _ ≤ 1 - 0.95 := by norm_num

/-- C5 (witness): the z-test theorem applied to the concrete experiment with
1000 visitors per arm. -/
theorem statSig_zTest_witness :
    (0 : ℝ) < 1000 ∧
    (calculateStatisticalSignificance 100 1000 130 1000 0.95).isSignificant = true ∧
    (calculateStatisticalSignificance 100 1000 130 1000 0.95).pValue < 0.05 :=
  ⟨by norm_num, (statSig_zTest 100 1000 130 1000 0.95 (by norm_num) (by norm_num)).2⟩

/-- C9: `normalCDF` computes exactly the five-term Abramowitz–Stegun rational
approximation with the listed coefficients, as the spec's formula states —
not any other CDF formula. -/
theorem normalCDF_eq_specFormula (z : ℝ) : normalCDF z = normalCDF_specFormula z := by
  simp only [normalCDF, normalCDF_specFormula]
  rw [show (0.3275911 : ℝ) * |z| / Real.sqrt 2 = 0.3275911 * (|z| / Real.sqrt 2) by ring,
    show (|z| / Real.sqrt 2) ^ 2 = |z| / Real.sqrt 2 * (|z| / Real.sqrt 2) from sq _]

end Calculations
